import Mathlib

/-!
Verification development for `create_problem.py`, a single-file interactive
script that bootstraps a local folder for a competitive-programming problem.

The script is embedded shallowly as pure Lean functions:
* user input (the values surviving the validation prompt loops) is a record;
* the four HTTP fetchers are functions from a mocked response to a record of
  issued requests, printed warning/error messages and a result
  (`Except` models an uncaught Python exception propagating out);
* the filesystem is an oracle saying whether `os.makedirs` or the file write
  raises `OSError`;
* `mainRun` returns the final folder name, the issued HTTP requests, the
  printed warning/error/success messages (static menu and prompt text is not
  modelled), the durable filesystem effects, and the outcome
  (success, `sys.exit` code, or an uncaught exception).

Python-specific behaviour is modelled explicitly: string truthiness
(`if not contest_id`), `str.splitlines`, single-character `str.replace`,
slicing `v[:300]`, and `dict` insertion order (association lists).  JSON
decode errors raised by `resp.json()` are modelled as caught by
`except requests.exceptions.RequestException` (true of requests >= 2.27,
where `JSONDecodeError` is a `RequestException`).  `char.isdigit` and
`int(...)` are modelled over ASCII digits.
-/

/-- Result of Python `int(s)` for the nonempty all-digit strings produced by
`parse_codeforces_contest_and_index` (decimal value of the digit string). -/
def intOfDigits (s : String) : Int :=
  Int.ofNat (s.toList.foldl (fun n c => 10 * n + (c.toNat - 48)) 0)

/-- Loop body of `parse_codeforces_contest_and_index` (lines 79-83): a digit
character is appended to `digits_part` (the first component), any other
character to `index_part` (the second). -/
def digitSplitStep (p : String × String) (c : Char) : String × String :=
  if c.isDigit then (p.1.push c, p.2) else (p.1, p.2.push c)

/-- Shallow embedding of `parse_codeforces_contest_and_index` (lines 71-86):
one pass over the input pushes digit characters onto `digits_part` and all
other characters onto `index_part`; if either part is empty the result is
`(None, None)`, otherwise `(int(digits_part), index_part)`. -/
def parse_codeforces_contest_and_index (user_input : String) :
    Option Int × Option String :=
  let parts := user_input.toList.foldl digitSplitStep ("", "")
  if parts.1 = "" || parts.2 = "" then (none, none)
  else (some (intOfDigits parts.1), some parts.2)

/-- Python truthiness test `not x` for an `Optional[int]`:
`None` and `0` are falsy. -/
def pyFalsyOptInt : Option Int → Bool
  | none => true
  | some n => n == 0

/-- Python truthiness test `not x` for an `Optional[str]`:
`None` and the empty string are falsy. -/
def pyFalsyOptStr : Option String → Bool
  | none => true
  | some s => s == ""

/-- Python truthiness test `if x:` for an `Optional[str]` value. -/
def pyTruthyOptStr : Option String → Bool
  | none => false
  | some s => s != ""

/-- Python `s.replace("\n", " ")`: a single-character replacement is a
character-wise map. -/
def pyReplaceNewlineWithSpace (s : String) : String :=
  String.mk (s.toList.map (fun c => if c = '\n' then ' ' else c))

/-- Python slice `s[:n]`: the first `n` characters. -/
def pyTake (n : Nat) (s : String) : String :=
  String.mk (s.toList.take n)

/-- Python `s.replace("-", "")`: drop every dash. -/
def pyRemoveDash (s : String) : String :=
  String.mk (s.toList.filter (fun c => c != '-'))

/-- Characters Python `str.strip()` removes (the ASCII whitespace set;
Unicode-only whitespace is not modelled). -/
def pyWhitespaceChar (c : Char) : Bool :=
  c = ' ' || c = '\t' || c = '\n' || c = '\r' || c = '\x0b' || c = '\x0c'

/-- Python `s.strip()`: drop leading and trailing whitespace. -/
def pyStrip (s : String) : String :=
  String.mk
    (((s.toList.dropWhile pyWhitespaceChar).reverse.dropWhile pyWhitespaceChar).reverse)

/-- Python `s.lower()` (ASCII case mapping). -/
def pyLower (s : String) : String :=
  String.mk (s.toList.map Char.toLower)

/-- Characters Python `str.splitlines` treats as line boundaries. -/
def pyLineBreakChar (c : Char) : Bool :=
  c = '\n' || c = '\r' || c = '\x0b' || c = '\x0c' ||
  c = '\x1c' || c = '\x1d' || c = '\x1e' || c = '\x85' ||
  c = '\u2028' || c = '\u2029'

/-- Worker for `pySplitlines`: `acc` is the current line, reversed. -/
def pySplitlinesGo : List Char → List Char → List String
  | [], acc => if acc.isEmpty then [] else [String.mk acc.reverse]
  | '\r' :: '\n' :: rest, acc => String.mk acc.reverse :: pySplitlinesGo rest []
  | c :: rest, acc =>
    if pyLineBreakChar c then String.mk acc.reverse :: pySplitlinesGo rest []
    else pySplitlinesGo rest (c :: acc)

/-- Python `str.splitlines()`: split at line boundaries (`\r\n` counts as one
boundary) and do not emit a final empty line after a trailing boundary. -/
def pySplitlines (s : String) : List String :=
  pySplitlinesGo s.toList []

/-- Python `os.path.join(a, b)` for the relative path names this script
builds (a nonempty folder name not ending in a separator). -/
def pyPathJoin (a b : String) : String := a ++ "/" ++ b

/-- An outbound HTTP GET: its URL and the `timeout=` argument in seconds. -/
structure HttpRequest where
  url : String
  timeout : Nat
deriving DecidableEq

/-- What a fetcher produced: the requests it issued, the messages it printed,
and either a normally returned `Option` value or an uncaught exception. -/
structure Fetch (α : Type) where
  requests : List HttpRequest
  msgs : List String
  result : Except String (Option α)

instance {ε α : Type} [DecidableEq ε] [DecidableEq α] : DecidableEq (Except ε α) := fun
  | .error a, .error b =>
    if h : a = b then .isTrue (by rw [h]) else .isFalse (by simp [h])
  | .error _, .ok _ => .isFalse (by simp)
  | .ok _, .error _ => .isFalse (by simp)
  | .ok a, .ok b =>
    if h : a = b then .isTrue (by rw [h]) else .isFalse (by simp [h])

/-- Parsed JSON body of the local LeetCode Node API, as the script reads it:
`data.get("title", "")`, `data.get("difficulty", "")`, `data.get("content", "")`
(a missing key is the empty string). -/
structure LCBody where
  title : String
  difficulty : String
  content : String
deriving DecidableEq

/-- Mocked response of the local LeetCode Node API.  `body` is the outcome of
`resp.json()`: `Except.error` is a JSON decode failure (raised as a
`RequestException` by requests >= 2.27). -/
inductive LCResponse where
  | netError (e : String)
  | ok (statusCode : Nat) (body : Except String LCBody)
deriving DecidableEq

/-- One entry of the Codeforces API problem list, with the fields the script
reads (`p["contestId"]`, `p["index"]`, `p.get("name", "")`, `p.get("tags", [])`). -/
structure CFProblem where
  contestId : Int
  index : String
  name : String
  tags : List String
deriving DecidableEq

/-- Parsed JSON body of the Codeforces API.  `status` is `data.get("status")`
(`none` when the key is missing); `problems` is `none` when
`data["result"]["problems"]` would raise a `KeyError`. -/
structure CFApiBody where
  status : Option String
  problems : Option (List CFProblem)
deriving DecidableEq

/-- Mocked response of the Codeforces API endpoint. -/
inductive CFApiResponse where
  | netError (e : String)
  | ok (statusCode : Nat) (body : Except String CFApiBody)
deriving DecidableEq

/-- Metadata dict returned by `codeforces_api_fetch`. -/
structure CFMeta where
  title : String
  tags : List String
deriving DecidableEq

/-- Mocked response for a scraped HTML page.  `statementDiv` is the
`get_text(separator="\n")` content of the statement `div` when
`soup.find(...)` locates one, `none` when it does not (BeautifulSoup's lenient
`html.parser` itself never raises). -/
inductive PageResponse where
  | netError (e : String)
  | ok (statusCode : Nat) (statementDiv : Option String)
deriving DecidableEq

/-- Constant from line 10 of the script. -/
def LEETCODE_API_URL : String := "http://localhost:3000"

/-- Shallow embedding of `get_leetcode_problem` (lines 28-68): GET
`/problems/:id` with `timeout=10`; warn and return `None` on a request
exception or a non-200 status; return `None` silently when the parsed body
has no title; otherwise return the title/difficulty/content dict. -/
def get_leetcode_problem (problem_id : Int) (resp : LCResponse) : Fetch LCBody :=
  let url := LEETCODE_API_URL ++ "/problems/" ++ toString problem_id
  match resp with
  | .netError e =>
    ⟨[⟨url, 10⟩], ["[Warning] LeetCode Node server request failed: " ++ e], .ok none⟩
  | .ok sc body =>
    if sc ≠ 200 then
      ⟨[⟨url, 10⟩],
       ["[Warning] Could not retrieve LeetCode problem from Node API. Status code: "
          ++ toString sc],
       .ok none⟩
    else
      match body with
      | .error e =>
        ⟨[⟨url, 10⟩], ["[Warning] LeetCode Node server request failed: " ++ e], .ok none⟩
      | .ok d =>
        if d.title = "" then ⟨[⟨url, 10⟩], [], .ok none⟩
        else ⟨[⟨url, 10⟩], [], .ok (some d)⟩

/-- Shallow embedding of `codeforces_api_fetch` (lines 89-110): GET the
problemset with `timeout=10`; the HTTP status code is never inspected; a
request exception or a JSON decode failure is caught with an error message; a
body whose `status` is not `"OK"` yields an error message and `None`; a
status-OK body without `result`/`problems` raises an uncaught `KeyError`;
otherwise the first matching problem's name and tags are returned, or `None`
silently when no problem matches. -/
def codeforces_api_fetch (contest_id : Int) (problem_index : String)
    (resp : CFApiResponse) : Fetch CFMeta :=
  let url := "https://codeforces.com/api/problemset.problems"
  match resp with
  | .netError e =>
    ⟨[⟨url, 10⟩], ["[Error] While contacting Codeforces API: " ++ e], .ok none⟩
  | .ok _sc body =>
    match body with
    | .error e =>
      ⟨[⟨url, 10⟩], ["[Error] While contacting Codeforces API: " ++ e], .ok none⟩
    | .ok data =>
      if data.status ≠ some "OK" then
        ⟨[⟨url, 10⟩], ["[Error] Codeforces API did not respond with status=OK."], .ok none⟩
      else
        match data.problems with
        | none => ⟨[⟨url, 10⟩], [], .error "KeyError"⟩
        | some ps =>
          match ps.find? (fun p => p.contestId == contest_id && p.index == problem_index) with
          | some p => ⟨[⟨url, 10⟩], [], .ok (some ⟨p.name, p.tags⟩)⟩
          | none => ⟨[⟨url, 10⟩], [], .ok none⟩

/-- Shallow embedding of `scrape_codeforces_statement` (lines 113-133): GET
the contest page with `timeout=10`; warn on a request exception or non-200
status; return `None` silently when no `problem-statement` div is found;
otherwise the div text, stripped. -/
def scrape_codeforces_statement (contest_id : Int) (problem_index : String)
    (resp : PageResponse) : Fetch String :=
  let url := "https://codeforces.com/contest/" ++ toString contest_id
      ++ "/problem/" ++ problem_index
  match resp with
  | .netError e =>
    ⟨[⟨url, 10⟩], ["[Error] While scraping Codeforces statement: " ++ e], .ok none⟩
  | .ok sc div =>
    if sc ≠ 200 then
      ⟨[⟨url, 10⟩],
       ["[Warning] Could not scrape Codeforces statement: HTTP " ++ toString sc],
       .ok none⟩
    else
      match div with
      | none => ⟨[⟨url, 10⟩], [], .ok none⟩
      | some t => ⟨[⟨url, 10⟩], [], .ok (some (pyStrip t))⟩

/-- Shallow embedding of `scrape_vjudge_statement` (lines 136-159): GET the
VJudge problem page with `timeout=10`; warn on a request exception or non-200
status; return `None` silently when no `panel-body` div is found; otherwise
the div text, stripped. -/
def scrape_vjudge_statement (oj_problem : String) (resp : PageResponse) :
    Fetch String :=
  let url := "https://vjudge.net/problem/" ++ oj_problem
  match resp with
  | .netError e =>
    ⟨[⟨url, 10⟩], ["[Error] While scraping VJudge statement: " ++ e], .ok none⟩
  | .ok sc div =>
    if sc ≠ 200 then
      ⟨[⟨url, 10⟩],
       ["[Warning] Could not scrape VJudge statement: HTTP " ++ toString sc],
       .ok none⟩
    else
      match div with
      | none => ⟨[⟨url, 10⟩], [], .ok none⟩
      | some t => ⟨[⟨url, 10⟩], [], .ok (some (pyStrip t))⟩

/-- Metadata collected for a problem: a Python `dict[str, str]` modelled as an
association list in insertion order. -/
abbrev Metadata : Type := List (String × String)

/-- User answers surviving the validation prompt loops of `main`.  Free-text
answers are stored after Python's `.strip()` was applied, exactly as the
script keeps them.  `ext_arg_types` holds the stripped per-argument type
answers (the `for i in range(arg_count)` loop), defaults not yet applied. -/
structure UserInput where
  problem_type : Nat
  leetcode_id : Int
  cf_input : String
  vjudge_input : String
  custom_name : String
  lang_choice : Nat
  filename_input : String
  skeleton_choice : Nat
  ext_class_name : String
  ext_return_type : String
  ext_function_name : String
  ext_arg_types : List String
deriving DecidableEq

/-- Extended-skeleton parameters (lines 298-303 of the script). -/
structure ExtendedArgs where
  class_name : String
  return_type : String
  function_name : String
  arguments : List String
deriving DecidableEq

/-- Language selection switch (lines 266-277): the language tag and the
default file name. -/
def langSelect (lang_choice : Nat) : String × String :=
  if lang_choice = 1 then ("cpp", "main.cpp")
  else if lang_choice = 2 then ("c", "main.c")
  else if lang_choice = 3 then ("py", "main.py")
  else ("java", "Main.java")

/-- Language tag chosen by the user. -/
def chosenLanguage (ui : UserInput) : String := (langSelect ui.lang_choice).1

/-- File name: the stripped answer, or the language default when empty
(lines 279-281). -/
def chosenFilename (ui : UserInput) : String :=
  if ui.filename_input = "" then (langSelect ui.lang_choice).2 else ui.filename_input

/-- Python `x.strip() or default` pattern used for the extended-skeleton
prompts: an empty (stripped) answer falls back to the default. -/
def defaultOr (s default : String) : String := if s = "" then default else s

/-- Extended-skeleton prompts (lines 305-323): only for skeleton type 1 with
C++ or Java; every answer defaults (`or "Solution"`, `or "int"`, `or "test"`,
each argument type `or "int"`); otherwise the fields stay empty. -/
def buildExtendedArgs (ui : UserInput) (language : String) : ExtendedArgs :=
  if ui.skeleton_choice = 1 ∧ (language = "cpp" ∨ language = "java") then
    ⟨defaultOr ui.ext_class_name "Solution",
     defaultOr ui.ext_return_type "int",
     defaultOr ui.ext_function_name "test",
     ui.ext_arg_types.map (fun t => defaultOr t "int")⟩
  else ⟨"", "", "", []⟩

/-- Comment lines for one metadata entry (lines 345-355): a statement longer
than 300 characters is truncated to its first 300 characters with newlines
replaced by spaces and `...` appended, on a single line; every other value is
emitted as a `// key:` line followed by one indented comment line per line of
the value. -/
def metadataEntryLines (k v : String) : List String :=
  if k = "statement" ∧ 300 < v.length then
    ["// " ++ k ++ " (truncated): " ++ pyReplaceNewlineWithSpace (pyTake 300 v) ++ "..."]
  else
    ("// " ++ k ++ ":") :: (pySplitlines v).map (fun line => "//    " ++ line)

/-- Comment lines for all metadata entries, in dict insertion order
(the `for k, v in problem_metadata.items()` loop). -/
def metadataEntriesLines : Metadata → List String
  | [] => []
  | (k, v) :: rest => metadataEntryLines k v ++ metadataEntriesLines rest

/-- The metadata comment block (lines 342-356): a delimiter line, the
`Problem Metadata` heading, the entry lines, and a delimiter line carrying an
extra newline. -/
def metadataCommentLines (meta : Metadata) : List String :=
  "// ===================================" ::
  "// Problem Metadata" ::
  (metadataEntriesLines meta ++ ["// ===================================\n"])

/-- Minimal C++ skeleton (lines 360-366). -/
def cppMinimalLines : List String :=
  ["#include <iostream>", "using namespace std;\n", "int main() \x7b",
   "    return 0;", "\x7d"]

/-- Extended C++ skeleton (lines 367-421). -/
def cppExtendedLines (ext : ExtendedArgs) : List String :=
  let cn := ext.class_name
  let rt := ext.return_type
  let fn := ext.function_name
  let args := ext.arguments
  ["#include <iostream>", "#include <vector>", "using namespace std;\n",
   "class " ++ cn ++ " \x7b", "public:"]
  ++ (if args ≠ [] then
        let arg_list := args.enum.map (fun p => p.2 ++ " arg" ++ toString (p.1 + 1))
        ["    " ++ rt ++ " " ++ fn ++ "(" ++ String.intercalate ", " arg_list ++ ") \x7b"]
      else
        ["    " ++ rt ++ " " ++ fn ++ "() \x7b"])
  ++ ["        // TODO: implement function logic here"]
  ++ (if rt ≠ "void" then
        if rt = "int" then ["        return 0;"]
        else ["        " ++ rt ++ " defaultVal = \x7b\x7d; // or other initialization",
              "        return defaultVal;"]
      else [])
  ++ ["    \x7d", "\x7d;\n", "// Testing Function", "int main() \x7b",
      "    " ++ cn ++ " sol;"]
  ++ (if args ≠ [] then
        let dummy_args := args.map (fun a =>
          if a = "int" then "0"
          else if a = "string" ∨ a = "std::string" then "\"\""
          else "/* " ++ a ++ " */")
        ["    auto result = sol." ++ fn ++ "(" ++ String.intercalate ", " dummy_args ++ ");"]
        ++ (if rt ≠ "void" then ["    cout << \"Result: \" << result << endl;"] else [])
      else
        ["    auto result = sol." ++ fn ++ "();"]
        ++ (if rt ≠ "void" then ["    cout << \"Result: \" << result << endl;"] else []))
  ++ ["    return 0;", "\x7d"]

/-- Minimal C skeleton (lines 423-428). -/
def cMinimalLines : List String :=
  ["#include <stdio.h>\n", "int main() \x7b", "    return 0;", "\x7d"]

/-- Extended C skeleton (lines 429-445). -/
def cExtendedLines : List String :=
  ["#include <stdio.h>", "#include <stdlib.h>\n", "typedef struct \x7b",
   "    // You can store fields here if needed", "\x7d Solution;\n",
   "int testFunction(Solution* sol) \x7b", "    // Implement logic",
   "    return 0;", "\x7d\n", "int main() \x7b", "    Solution sol;",
   "    int result = testFunction(&sol);",
   "    printf(\"Result: %d\\n\", result);", "    return 0;", "\x7d"]

/-- Minimal Python skeleton (lines 447-454). -/
def pyMinimalLines : List String :=
  ["#!/usr/bin/env python3", "def main():",
   "    pass  # TODO: solve the problem here", "",
   "if __name__ == \x27__main__\x27:", "    main()"]

/-- Extended Python skeleton (lines 455-467). -/
def pyExtendedLines : List String :=
  ["#!/usr/bin/env python3", "def solve(*args):", "    # TODO: implement logic",
   "    return 0  # or something else\n", "def main():",
   "    # Example usage of solve()", "    result = solve()",
   "    print(f\"Result: \x7bresult\x7d\")", "",
   "if __name__ == \x27__main__\x27:", "    main()"]

/-- Minimal Java skeleton (lines 470-476). -/
def javaMinimalLines : List String :=
  ["public class Main \x7b", "    public static void main(String[] args) \x7b",
   "        // TODO: implement solution", "    \x7d", "\x7d"]

/-- Extended Java skeleton (lines 477-530). -/
def javaExtendedLines (ext : ExtendedArgs) : List String :=
  let cn := ext.class_name
  let rt := ext.return_type
  let fn := ext.function_name
  let args := ext.arguments
  ["public class Main \x7b", "    public static void main(String[] args) \x7b",
   "        " ++ cn ++ " sol = new " ++ cn ++ "();"]
  ++ (if args ≠ [] then
        let dummy_args := args.map (fun a =>
          if a = "int" then "0"
          else if a = "String" then "\"\""
          else "/* " ++ a ++ " */")
        ["        " ++ rt ++ " result = sol." ++ fn ++ "("
            ++ String.intercalate ", " dummy_args ++ ");"]
        ++ (if rt ≠ "void" then
              ["        System.out.println(\"Result: \" + result);"]
            else [])
      else
        ["        " ++ rt ++ " result = sol." ++ fn ++ "();"]
        ++ (if rt ≠ "void" then
              ["        System.out.println(\"Result: \" + result);"]
            else []))
  ++ ["    \x7d", "\x7d\n", "class " ++ cn ++ " \x7b"]
  ++ (if args ≠ [] then
        let arg_list := args.enum.map (fun p => p.2 ++ " arg" ++ toString (p.1 + 1))
        ["    public " ++ rt ++ " " ++ fn ++ "("
            ++ String.intercalate ", " arg_list ++ ") \x7b"]
      else
        ["    public " ++ rt ++ " " ++ fn ++ "() \x7b"])
  ++ ["        // TODO: implement logic here"]
  ++ (if rt ≠ "void" then
        if rt = "int" then ["        return 0;"]
        else if rt = "String" then ["        return \"\";"]
        else ["        // Return some default value", "        return null;"]
      else [])
  ++ ["    \x7d", "\x7d"]

/-- Skeleton selection switch (lines 358-530). -/
def skeletonLines (language : String) (skeleton_type : Nat) (ext : ExtendedArgs) :
    List String :=
  if language = "cpp" then
    (if skeleton_type = 2 then cppMinimalLines else cppExtendedLines ext)
  else if language = "c" then
    (if skeleton_type = 2 then cMinimalLines else cExtendedLines)
  else if language = "py" then
    (if skeleton_type = 2 then pyMinimalLines else pyExtendedLines)
  else
    (if skeleton_type = 2 then javaMinimalLines else javaExtendedLines ext)

/-- The full `code_lines` list (lines 339-530): the metadata comment block
when the metadata dict is truthy (nonempty), then the skeleton. -/
def buildCodeLines (meta : Metadata) (language : String) (skeleton_type : Nat)
    (ext : ExtendedArgs) : List String :=
  (if meta = ([] : Metadata) then [] else metadataCommentLines meta)
    ++ skeletonLines language skeleton_type ext

/-- File content produced by the write loop (lines 537-538): each line of
`code_lines` followed by a newline. -/
def fileContentOf (lines : List String) : String :=
  String.join (lines.map (fun l => l ++ "\n"))

/-- Mocked responses for the HTTP endpoints the script may contact. -/
structure MockHttp where
  leetcode : LCResponse
  cfApi : CFApiResponse
  cfPage : PageResponse
  vjudgePage : PageResponse
deriving DecidableEq

/-- Filesystem oracle: the `OSError` message raised by `os.makedirs` or by
opening/writing the skeleton file, if any.  Prior existence of the directory
is not an error (`exist_ok=True`). -/
structure MockFs where
  mkdirError : Option String
  writeError : Option String
deriving DecidableEq

/-- Filesystem oracle of a run where neither operation raises. -/
def cleanFs : MockFs := ⟨none, none⟩

/-- Durable filesystem effects of a run. -/
inductive OsEffect where
  | makedirs (path : String)
  | writeFile (path : String) (content : String)
deriving DecidableEq

/-- How a run of `main` ends: normal return, `sys.exit(code)`, or an uncaught
Python exception. -/
inductive Outcome where
  | success
  | exited (code : Nat)
  | raised (e : String)
deriving DecidableEq

/-- Output of the problem-source phase of `main` (lines 165-248): issued
requests, printed messages, the chosen `folder_name`, and either the
collected `problem_metadata` dict or an uncaught exception. -/
structure SourceOut where
  requests : List HttpRequest
  msgs : List String
  folderName : String
  result : Except String Metadata
deriving DecidableEq

/-- Observable result of a run of `main`. -/
structure RunResult where
  folderName : String
  requests : List HttpRequest
  msgs : List String
  effects : List OsEffect
  outcome : Outcome
deriving DecidableEq

/-- Message printed when `os.makedirs` raises (line 331). -/
def mkdirErrorMsg (folder e : String) : String :=
  "[Error] Unable to create folder \x27" ++ folder ++ "\x27: " ++ e

/-- Message printed when the file write raises (line 541). -/
def writeErrorMsg (path e : String) : String :=
  "[Error] Writing to file " ++ path ++ ": " ++ e

/-- Message printed after a successful write (line 539). -/
def successMsg (path : String) : String :=
  "Successfully created \x27" ++ path ++ "\x27 with the desired skeleton."

/-- The LeetCode branch of `main` (lines 185-196). -/
def leetcodeBranch (problem_id : Int) (resp : LCResponse) : SourceOut :=
  let fetch := get_leetcode_problem problem_id resp
  let fetchingMsg := "Fetching LeetCode problem #" ++ toString problem_id ++ "..."
  let folder := "leetcode_p" ++ toString problem_id
  match fetch.result with
  | .error e => ⟨fetch.requests, fetchingMsg :: fetch.msgs, folder, .error e⟩
  | .ok none =>
    ⟨fetch.requests,
     fetchingMsg :: fetch.msgs ++
       ["[Warning] LeetCode data not found, Node server not running, or authentication missing. Creating folder anyway."],
     folder, .ok []⟩
  | .ok (some ld) =>
    ⟨fetch.requests, fetchingMsg :: fetch.msgs, folder,
     .ok [("title", ld.title), ("difficulty", ld.difficulty), ("statement", ld.content)]⟩

/-- The Codeforces branch of `main` (lines 201-219).  The validity test is
Python truthiness (`if not contest_id or not problem_index`), so a parsed
contest id of `0` also takes the fallback.  In the valid branch both options
are necessarily `some`, read off with `getD`. -/
def codeforcesBranch (cf_input : String) (api : CFApiResponse) (page : PageResponse) :
    SourceOut :=
  let parsed := parse_codeforces_contest_and_index cf_input
  if pyFalsyOptInt parsed.1 || pyFalsyOptStr parsed.2 then
    ⟨[], ["[Warning] \x27" ++ cf_input ++ "\x27 is not valid. Creating folder anyway."],
     "codeforces_p" ++ cf_input, .ok []⟩
  else
    let contest_id := parsed.1.getD 0
    let problem_index := parsed.2.getD ""
    let folder := "codeforces_p" ++ toString contest_id ++ problem_index
    let apiFetch := codeforces_api_fetch contest_id problem_index api
    match apiFetch.result with
    | .error e => ⟨apiFetch.requests, apiFetch.msgs, folder, .error e⟩
    | .ok metaOpt =>
      let meta1 : Metadata := match metaOpt with
        | some m => [("title", m.title), ("tags", String.intercalate ", " m.tags)]
        | none => []
      let scrape := scrape_codeforces_statement contest_id problem_index page
      match scrape.result with
      | .error e =>
        ⟨apiFetch.requests ++ scrape.requests, apiFetch.msgs ++ scrape.msgs, folder, .error e⟩
      | .ok stOpt =>
        if pyTruthyOptStr stOpt then
          ⟨apiFetch.requests ++ scrape.requests, apiFetch.msgs ++ scrape.msgs, folder,
           .ok (meta1 ++ [("statement", stOpt.getD "")])⟩
        else
          ⟨apiFetch.requests ++ scrape.requests,
           apiFetch.msgs ++ scrape.msgs ++ ["[Warning] Could not scrape Codeforces statement."],
           folder, .ok meta1⟩

/-- The VJudge branch of `main` (lines 224-237). -/
def vjudgeBranch (oj_problem : String) (page : PageResponse) : SourceOut :=
  if oj_problem = "" then
    ⟨[], ["[Warning] No input. Creating folder anyway."], "vjudge_problem_untitled", .ok []⟩
  else
    let folder := "vjudge_problem_" ++ pyRemoveDash (pyLower oj_problem)
    let scrape := scrape_vjudge_statement oj_problem page
    match scrape.result with
    | .error e => ⟨scrape.requests, scrape.msgs, folder, .error e⟩
    | .ok stOpt =>
      if pyTruthyOptStr stOpt then
        ⟨scrape.requests, scrape.msgs, folder,
         .ok [("title", oj_problem), ("statement", stOpt.getD "")]⟩
      else
        ⟨scrape.requests,
         scrape.msgs ++
           ["[Warning] Could not retrieve VJudge statement. Possibly requires login or page changed."],
         folder, .ok []⟩

/-- The problem-source phase of `main` (lines 182-248): dispatch on the
validated source choice; the `else` branch is the custom folder name (its
prompt loop guarantees a nonempty name). -/
def sourceStep (ui : UserInput) (http : MockHttp) : SourceOut :=
  if ui.problem_type = 1 then leetcodeBranch ui.leetcode_id http.leetcode
  else if ui.problem_type = 2 then codeforcesBranch ui.cf_input http.cfApi http.cfPage
  else if ui.problem_type = 3 then vjudgeBranch ui.vjudge_input http.vjudgePage
  else ⟨[], [], ui.custom_name, .ok []⟩

/-- The folder-creation, code-generation and file-write phase of `main`
(lines 328-542), given the outcome of the source phase. -/
def finishRun (src : SourceOut) (filename : String) (language : String)
    (skeleton_type : Nat) (ext : ExtendedArgs) (fs : MockFs) : RunResult :=
  match src.result with
  | .error e => ⟨src.folderName, src.requests, src.msgs, [], .raised e⟩
  | .ok metadata =>
    match fs.mkdirError with
    | some e =>
      ⟨src.folderName, src.requests,
       src.msgs ++ [mkdirErrorMsg src.folderName e], [], .exited 1⟩
    | none =>
      let filePath := pyPathJoin src.folderName filename
      let content := fileContentOf (buildCodeLines metadata language skeleton_type ext)
      match fs.writeError with
      | some e =>
        ⟨src.folderName, src.requests,
         src.msgs ++ [writeErrorMsg filePath e],
         [OsEffect.makedirs src.folderName], .exited 1⟩
      | none =>
        ⟨src.folderName, src.requests,
         src.msgs ++ [successMsg filePath],
         [OsEffect.makedirs src.folderName, OsEffect.writeFile filePath content],
         .success⟩

/-- Shallow embedding of `main` (lines 162-542) as a function of the
validated user input, the mocked HTTP responses and the filesystem oracle. -/
def mainRun (ui : UserInput) (http : MockHttp) (fs : MockFs) : RunResult :=
  finishRun (sourceStep ui http) (chosenFilename ui) (chosenLanguage ui)
    ui.skeleton_choice (buildExtendedArgs ui (chosenLanguage ui)) fs

/-! ## Helper lemmas -/

theorem String.push_data_eq (s : String) (c : Char) :
    (s.push c).data = s.data ++ [c] := by
  cases s; rfl

theorem String.mk_eq_empty_iff (l : List Char) : String.mk l = "" ↔ l = [] := by
  constructor
  · intro h
    have := congrArg String.data h
    simpa using this
  · intro h; rw [h]

theorem digitSplitFold (l : List Char) (a b : String) :
    l.foldl digitSplitStep (a, b) =
      (String.mk (a.data ++ l.filter (fun c => c.isDigit)),
       String.mk (b.data ++ l.filter (fun c => !c.isDigit))) := by
  induction l generalizing a b with
  | nil =>
    obtain ⟨la⟩ := a
    obtain ⟨lb⟩ := b
    simp
  | cons c cs ih =>
    by_cases h : c.isDigit
    · simp [digitSplitStep, h, ih, String.push_data_eq, List.filter_cons]
    · simp [digitSplitStep, h, ih, String.push_data_eq, List.filter_cons]

/-- Closed form of the parser: it depends only on the subsequences of digit
and non-digit characters. -/
theorem parse_characterization (s : String) :
    parse_codeforces_contest_and_index s =
      if s.toList.filter (fun c => c.isDigit) = [] ∨
         s.toList.filter (fun c => !c.isDigit) = [] then
        (none, none)
      else
        (some (intOfDigits (String.mk (s.toList.filter (fun c => c.isDigit)))),
         some (String.mk (s.toList.filter (fun c => !c.isDigit)))) := by
  unfold parse_codeforces_contest_and_index
  rw [digitSplitFold]
  simp only [String.data, List.nil_append]
  apply if_congr _ rfl rfl
  simp [String.mk_eq_empty_iff]

/-! ## Sample inputs shared by the witnesses -/

/-- Mocked HTTP world in which every endpooint refuses the connection. -/
def sampleHttp : MockHttp :=
  ⟨.netError "refused", .netError "refused", .netError "refused", .netError "refused"⟩

/-- Sample validated user input: Codeforces problem `4A`, minimal Python
skeleton, default file name. -/
def sampleUi : UserInput := ⟨2, 13, "4A", "", "", 3, "", 2, "", "", "", []⟩

/-! ## C10 -/

/-- Closed form of the parser with `any` conditions, shared by several
claim proofs. -/
theorem parse_any_form (s : String) :
    parse_codeforces_contest_and_index s =
      if s.toList.any (fun c => c.isDigit) = true ∧
         s.toList.any (fun c => !c.isDigit) = true then
        (some (intOfDigits (String.mk (s.toList.filter (fun c => c.isDigit)))),
         some (String.mk (s.toList.filter (fun c => !c.isDigit))))
      else (none, none) := by
  rw [parse_characterization]
  by_cases hd : s.toList.any (fun c => c.isDigit) = true
  · by_cases hn : s.toList.any (fun c => !c.isDigit) = true
    · have hcond : ¬(s.toList.filter (fun c => c.isDigit) = [] ∨
          s.toList.filter (fun c => !c.isDigit) = []) := by
        push_neg
        obtain ⟨a, ha, hpa⟩ := List.any_eq_true.mp hd
        obtain ⟨b, hb, hpb⟩ := List.any_eq_true.mp hn
        refine ⟨fun hnil => ?_, fun hnil => ?_⟩
        · exact (List.filter_eq_nil_iff.mp hnil a ha) hpa
        · exact (List.filter_eq_nil_iff.mp hnil b hb) hpb
      rw [if_neg hcond, if_pos ⟨hd, hn⟩]
    · have hcond : s.toList.filter (fun c => !c.isDigit) = [] := by
        rw [List.filter_eq_nil_iff]
        intro a ha hpa
        exact hn (List.any_eq_true.mpr ⟨a, ha, hpa⟩)
      rw [if_pos (Or.inr hcond), if_neg (fun hc => hn hc.2)]
  · have hcond : s.toList.filter (fun c => c.isDigit) = [] := by
      rw [List.filter_eq_nil_iff]
      intro a ha hpa
      exact hd (List.any_eq_true.mpr ⟨a, ha, hpa⟩)
    rw [if_pos (Or.inl hcond), if_neg (fun hc => hd hc.1)]

/-- C10: `parse_codeforces_contest_and_index` is insensitive to the
interleaving of digits and non-digits: for every input it returns the integer
formed by all digit characters in order and the string of all non-digit
characters in order, and it returns `(None, None)` exactly when the input has
no digit character or no non-digit character; in particular `"A4"` and
`"4A"` both parse to `(4, "A")`. -/
theorem parse_digit_interleaving :
    (∀ s : String,
      parse_codeforces_contest_and_index s =
        if s.toList.any (fun c => c.isDigit) = true ∧
           s.toList.any (fun c => !c.isDigit) = true then
          (some (intOfDigits (String.mk (s.toList.filter (fun c => c.isDigit)))),
           some (String.mk (s.toList.filter (fun c => !c.isDigit))))
        else (none, none)) ∧
    parse_codeforces_contest_and_index "A4" = (some 4, some "A") ∧
    parse_codeforces_contest_and_index "4A" = (some 4, some "A") :=
  ⟨parse_any_form, by decide, by decide⟩

/-! ## C2 -/

/-- C2: for every malformed Codeforces identifier (no digit character, or no
non-digit character), `parse_codeforces_contest_and_index` returns
`(None, None)` and `main` does not crash: it warns, uses the fallback folder
name `codeforces_p` followed by the raw input, issues no request, and
continues through the language prompt to a successful run. -/
theorem malformed_cf_input_fallback (ui : UserInput) (http : MockHttp) (s : String)
    (hpt : ui.problem_type = 2) (hcf : ui.cf_input = s)
    (hmal : s.toList.all (fun c => !c.isDigit) = true ∨
            s.toList.all (fun c => c.isDigit) = true) :
    parse_codeforces_contest_and_index s = (none, none) ∧
    (mainRun ui http cleanFs).folderName = "codeforces_p" ++ s ∧
    (mainRun ui http cleanFs).outcome = .success ∧
    (mainRun ui http cleanFs).requests = [] ∧
    ("[Warning] \x27" ++ s ++ "\x27 is not valid. Creating folder anyway.")
      ∈ (mainRun ui http cleanFs).msgs := by
  have hparse : parse_codeforces_contest_and_index s = (none, none) := by
    rw [parse_characterization]
    apply if_pos
    rcases hmal with h | h
    · left
      rw [List.filter_eq_nil_iff]
      intro a ha hpa
      have := List.all_eq_true.mp h a ha
      simp only [Bool.not_eq_true'] at this
      rw [this] at hpa
      exact Bool.false_ne_true hpa
    · right
      rw [List.filter_eq_nil_iff]
      intro a ha hpa
      have := List.all_eq_true.mp h a ha
      rw [this] at hpa
      exact Bool.false_ne_true hpa
  refine ⟨hparse, ?_, ?_, ?_, ?_⟩ <;>
    simp [mainRun, sourceStep, hpt, hcf, codeforcesBranch, hparse, pyFalsyOptInt,
      finishRun, cleanFs]

/-- Witness for C2 at the concrete malformed input `"abc"`. -/
theorem malformed_cf_input_fallback_witness :
    parse_codeforces_contest_and_index "abc" = (none, none) ∧
    (mainRun ⟨2, 13, "abc", "", "", 3, "", 2, "", "", "", []⟩ sampleHttp cleanFs).folderName
      = "codeforces_p" ++ "abc" ∧
    (mainRun ⟨2, 13, "abc", "", "", 3, "", 2, "", "", "", []⟩ sampleHttp cleanFs).outcome
      = .success ∧
    (mainRun ⟨2, 13, "abc", "", "", 3, "", 2, "", "", "", []⟩ sampleHttp cleanFs).requests
      = [] ∧
    ("[Warning] \x27" ++ "abc" ++ "\x27 is not valid. Creating folder anyway.")
      ∈ (mainRun ⟨2, 13, "abc", "", "", 3, "", 2, "", "", "", []⟩ sampleHttp cleanFs).msgs :=
  malformed_cf_input_fallback ⟨2, 13, "abc", "", "", 3, "", 2, "", "", "", []⟩
    sampleHttp "abc" rfl rfl (Or.inl (by decide))

/-! ## C8 -/

/-- C8: for every input whose digit characters form the number `0` (and which
has both a digit and a non-digit character, such as `"0A"`), the parser
returns `(0, index)`, yet `main` treats the result as invalid because it
tests the contest id for truthiness (`if not contest_id`) rather than for
`None`: the fallback branch runs, the folder is named `codeforces_p` plus the
raw input, and no Codeforces API request is issued. -/
theorem zero_contest_id_falls_back (ui : UserInput) (http : MockHttp) (s : String)
    (hpt : ui.problem_type = 2) (hcf : ui.cf_input = s)
    (hd : s.toList.any (fun c => c.isDigit) = true)
    (hn : s.toList.any (fun c => !c.isDigit) = true)
    (hzero : intOfDigits (String.mk (s.toList.filter (fun c => c.isDigit))) = 0) :
    parse_codeforces_contest_and_index s =
      (some 0, some (String.mk (s.toList.filter (fun c => !c.isDigit)))) ∧
    (mainRun ui http cleanFs).folderName = "codeforces_p" ++ s ∧
    (mainRun ui http cleanFs).requests = [] ∧
    ("[Warning] \x27" ++ s ++ "\x27 is not valid. Creating folder anyway.")
      ∈ (mainRun ui http cleanFs).msgs := by
  have hparse : parse_codeforces_contest_and_index s =
      (some 0, some (String.mk (s.toList.filter (fun c => !c.isDigit)))) := by
    rw [parse_any_form s, if_pos ⟨hd, hn⟩, hzero]
  refine ⟨hparse, ?_, ?_, ?_⟩ <;>
    simp [mainRun, sourceStep, hpt, hcf, codeforcesBranch, hparse, pyFalsyOptInt,
      finishRun, cleanFs]

/-- Witness for C8 at the concrete input `"0A"`. -/
theorem zero_contest_id_falls_back_witness :
    parse_codeforces_contest_and_index "0A" =
      (some 0, some (String.mk ("0A".toList.filter (fun c => !c.isDigit)))) ∧
    (mainRun ⟨2, 13, "0A", "", "", 3, "", 2, "", "", "", []⟩ sampleHttp cleanFs).folderName
      = "codeforces_p" ++ "0A" ∧
    (mainRun ⟨2, 13, "0A", "", "", 3, "", 2, "", "", "", []⟩ sampleHttp cleanFs).requests
      = [] ∧
    ("[Warning] \x27" ++ "0A" ++ "\x27 is not valid. Creating folder anyway.")
      ∈ (mainRun ⟨2, 13, "0A", "", "", 3, "", 2, "", "", "", []⟩ sampleHttp cleanFs).msgs :=
  zero_contest_id_falls_back ⟨2, 13, "0A", "", "", 3, "", 2, "", "", "", []⟩
    sampleHttp "0A" rfl rfl (by decide) (by decide) (by decide)

/-! ## C1 -/

/-- C1: the program is deterministic.  `main` is embedded as a pure function
of the user input, the mocked HTTP responses and the filesystem oracle (the
script has no other source of nondeterminism: no randomness, clocks or
environment reads), so two runs over equal inputs and equal mocked responses
agree on everything observable — in particular on the folder name and on the
bytes written to the skeleton file. -/
theorem mainRun_deterministic (ui₁ ui₂ : UserInput) (http₁ http₂ : MockHttp)
    (fs₁ fs₂ : MockFs) (hui : ui₁ = ui₂) (hhttp : http₁ = http₂) (hfs : fs₁ = fs₂) :
    mainRun ui₁ http₁ fs₁ = mainRun ui₂ http₂ fs₂ := by
  rw [hui, hhttp, hfs]

/-- Witness for C1 at a concrete run. -/
theorem mainRun_deterministic_witness :
    mainRun sampleUi sampleHttp cleanFs = mainRun sampleUi sampleHttp cleanFs :=
  mainRun_deterministic sampleUi sampleUi sampleHttp sampleHttp cleanFs cleanFs
    rfl rfl rfl

/-! ## C4 -/

/-- C4: filesystem errors abort the run with exit status 1.  If `os.makedirs`
raises an `OSError`, an error message is printed and the process exits with
code 1 before any durable effect; if the directory was created and the file
write raises an `OSError`, an error message is printed, the process exits
with code 1, the file-write effect is absent and nothing runs after the
failed write: the run's messages are exactly the source-phase messages
followed by the write error, with no success message after it.
Both statements presuppose that the source phase returned normally, since an
uncaught exception there would stop `main` before `os.makedirs`. -/
theorem fs_error_exits_nonzero (ui : UserInput) (http : MockHttp) (e : String)
    (meta : Metadata) (hok : (sourceStep ui http).result = .ok meta) :
    (∀ w : Option String,
      (mainRun ui http ⟨some e, w⟩).outcome = .exited 1 ∧
      (mainRun ui http ⟨some e, w⟩).effects = [] ∧
      (mainRun ui http ⟨some e, w⟩).msgs.getLast?
        = some (mkdirErrorMsg (sourceStep ui http).folderName e)) ∧
    ((mainRun ui http ⟨none, some e⟩).outcome = .exited 1 ∧
      (mainRun ui http ⟨none, some e⟩).effects
        = [OsEffect.makedirs (sourceStep ui http).folderName] ∧
      (mainRun ui http ⟨none, some e⟩).msgs
        = (sourceStep ui http).msgs
            ++ [writeErrorMsg
                  (pyPathJoin (sourceStep ui http).folderName (chosenFilename ui)) e] ∧
      (∀ p c, OsEffect.writeFile p c ∉ (mainRun ui http ⟨none, some e⟩).effects)) := by
  constructor
  · intro w
    refine ⟨?_, ?_, ?_⟩ <;> simp [mainRun, finishRun, hok]
  · refine ⟨?_, ?_, ?_, ?_⟩
    · simp [mainRun, finishRun, hok]
    · simp [mainRun, finishRun, hok]
    · simp [mainRun, finishRun, hok]
    · intro p c
      simp [mainRun, finishRun, hok]

/-- Witness for C4: both fs-error runs at concrete inputs exit with code 1. -/
theorem fs_error_exits_nonzero_witness :
    (mainRun sampleUi sampleHttp ⟨some "disk full", none⟩).outcome = .exited 1 ∧
    (mainRun sampleUi sampleHttp ⟨none, some "disk full"⟩).outcome = .exited 1 :=
  ⟨((fs_error_exits_nonzero sampleUi sampleHttp "disk full" [] rfl).1 none).1,
   (fs_error_exits_nonzero sampleUi sampleHttp "disk full" [] rfl).2.1⟩

/-! ## C6 -/

/-- C6: on every successful run the only durable filesystem effects are, in
order, one `os.makedirs` of the chosen folder (with `exist_ok=True`, so prior
existence is tolerated) and one write of the single skeleton file inside it;
in particular the fetched metadata is persisted nowhere else. -/
theorem successful_run_effects (ui : UserInput) (http : MockHttp) (fs : MockFs)
    (h : (mainRun ui http fs).outcome = .success) :
    ∃ content,
      (mainRun ui http fs).effects =
        [OsEffect.makedirs (mainRun ui http fs).folderName,
         OsEffect.writeFile
           (pyPathJoin (mainRun ui http fs).folderName (chosenFilename ui))
           content] := by
  obtain ⟨me, we⟩ := fs
  rcases hr : (sourceStep ui http).result with e | meta
  · exfalso
    simp [mainRun, finishRun, hr] at h
  · cases me with
    | some e =>
      exfalso
      simp [mainRun, finishRun, hr] at h
    | none =>
      cases we with
      | some e =>
        exfalso
        simp [mainRun, finishRun, hr] at h
      | none =>
        exact ⟨fileContentOf (buildCodeLines meta (chosenLanguage ui)
          ui.skeleton_choice (buildExtendedArgs ui (chosenLanguage ui))),
          by simp [mainRun, finishRun, hr]⟩

/-- Witness for C6 at a concrete successful run. -/
theorem successful_run_effects_witness :
    (mainRun sampleUi sampleHttp cleanFs).outcome = .success ∧
    ∃ content,
      (mainRun sampleUi sampleHttp cleanFs).effects =
        [OsEffect.makedirs (mainRun sampleUi sampleHttp cleanFs).folderName,
         OsEffect.writeFile
           (pyPathJoin (mainRun sampleUi sampleHttp cleanFs).folderName
             (chosenFilename sampleUi))
           content] :=
  ⟨rfl, successful_run_effects sampleUi sampleHttp cleanFs rfl⟩

/-! ## C7 -/

theorem lc_requests (problem_id : Int) (resp : LCResponse) :
    (get_leetcode_problem problem_id resp).requests
      = [⟨LEETCODE_API_URL ++ "/problems/" ++ toString problem_id, 10⟩] := by
  cases resp with
  | netError e => rfl
  | ok sc body =>
    cases body with
    | error e =>
      simp only [get_leetcode_problem]
      split <;> rfl
    | ok d =>
      simp only [get_leetcode_problem]
      split
      · rfl
      · split <;> rfl

theorem cfapi_requests (contest_id : Int) (problem_index : String)
    (resp : CFApiResponse) :
    (codeforces_api_fetch contest_id problem_index resp).requests
      = [⟨"https://codeforces.com/api/problemset.problems", 10⟩] := by
  cases resp with
  | netError e => rfl
  | ok sc body =>
    cases body with
    | error e => rfl
    | ok data =>
      obtain ⟨st, pr⟩ := data
      simp only [codeforces_api_fetch]
      split
      · rfl
      · cases pr with
        | none => rfl
        | some ps =>
          split
          · rfl
          · split <;> rfl

theorem cfpage_requests (contest_id : Int) (problem_index : String)
    (resp : PageResponse) :
    (scrape_codeforces_statement contest_id problem_index resp).requests
      = [⟨"https://codeforces.com/contest/" ++ toString contest_id
            ++ "/problem/" ++ problem_index, 10⟩] := by
  cases resp with
  | netError e => rfl
  | ok sc div =>
    cases div with
    | none =>
      simp only [scrape_codeforces_statement]
      split <;> rfl
    | some t =>
      simp only [scrape_codeforces_statement]
      split <;> rfl

theorem vjudge_requests (oj_problem : String) (resp : PageResponse) :
    (scrape_vjudge_statement oj_problem resp).requests
      = [⟨"https://vjudge.net/problem/" ++ oj_problem, 10⟩] := by
  cases resp with
  | netError e => rfl
  | ok sc div =>
    cases div with
    | none =>
      simp only [scrape_vjudge_statement]
      split <;> rfl
    | some t =>
      simp only [scrape_vjudge_statement]
      split <;> rfl

theorem leetcodeBranch_requests (problem_id : Int) (resp : LCResponse) :
    (leetcodeBranch problem_id resp).requests
      = (get_leetcode_problem problem_id resp).requests := by
  simp only [leetcodeBranch]
  split <;> rfl

theorem codeforcesBranch_requests (cf_input : String) (api : CFApiResponse)
    (page : PageResponse) :
    (codeforcesBranch cf_input api page).requests = [] ∨
    (codeforcesBranch cf_input api page).requests
      = (codeforces_api_fetch
          ((parse_codeforces_contest_and_index cf_input).1.getD 0)
          ((parse_codeforces_contest_and_index cf_input).2.getD "") api).requests ∨
    (codeforcesBranch cf_input api page).requests
      = (codeforces_api_fetch
          ((parse_codeforces_contest_and_index cf_input).1.getD 0)
          ((parse_codeforces_contest_and_index cf_input).2.getD "") api).requests
        ++ (scrape_codeforces_statement
            ((parse_codeforces_contest_and_index cf_input).1.getD 0)
            ((parse_codeforces_contest_and_index cf_input).2.getD "") page).requests := by
  simp only [codeforcesBranch]
  split
  · left; rfl
  · split
    · right; left; rfl
    · split
      · right; right; rfl
      · split
        · right; right; rfl
        · right; right; rfl

theorem vjudgeBranch_requests (oj_problem : String) (page : PageResponse) :
    (vjudgeBranch oj_problem page).requests = [] ∨
    (vjudgeBranch oj_problem page).requests
      = (scrape_vjudge_statement oj_problem page).requests := by
  simp only [vjudgeBranch]
  split
  · left; rfl
  · split
    · right; rfl
    · split
      · right; rfl
      · right; rfl

theorem sourceStep_timeouts (ui : UserInput) (http : MockHttp) :
    ∀ r ∈ (sourceStep ui http).requests, r.timeout = 10 := by
  intro r hr
  unfold sourceStep at hr
  split at hr
  · rw [leetcodeBranch_requests, lc_requests] at hr
    simp at hr
    rw [hr]
  · split at hr
    · rcases codeforcesBranch_requests ui.cf_input http.cfApi http.cfPage with h | h | h
      · rw [h] at hr
        simp at hr
      · rw [h, cfapi_requests] at hr
        simp at hr
        rw [hr]
      · rw [h, cfapi_requests, cfpage_requests] at hr
        simp at hr
        rcases hr with h' | h' <;> rw [h']
    · split at hr
      · rcases vjudgeBranch_requests ui.vjudge_input http.vjudgePage with h | h
        · rw [h] at hr
          simp at hr
        · rw [h, vjudge_requests] at hr
          simp at hr
          rw [hr]
      · simp at hr

theorem finishRun_requests (src : SourceOut) (filename language : String)
    (skeleton_type : Nat) (ext : ExtendedArgs) (fs : MockFs) :
    (finishRun src filename language skeleton_type ext fs).requests
      = src.requests := by
  unfold finishRun
  split
  · rfl
  · split
    · rfl
    · split <;> rfl

/-- C7: every outbound HTTP GET issued by the program — by each of the four
fetchers individually, and hence in any full run of `main` — carries the same
fixed `timeout=10` seconds. -/
theorem all_requests_timeout_ten :
    (∀ (problem_id : Int) (resp : LCResponse),
      ∀ r ∈ (get_leetcode_problem problem_id resp).requests, r.timeout = 10) ∧
    (∀ (contest_id : Int) (problem_index : String) (resp : CFApiResponse),
      ∀ r ∈ (codeforces_api_fetch contest_id problem_index resp).requests,
        r.timeout = 10) ∧
    (∀ (contest_id : Int) (problem_index : String) (resp : PageResponse),
      ∀ r ∈ (scrape_codeforces_statement contest_id problem_index resp).requests,
        r.timeout = 10) ∧
    (∀ (oj_problem : String) (resp : PageResponse),
      ∀ r ∈ (scrape_vjudge_statement oj_problem resp).requests, r.timeout = 10) ∧
    (∀ (ui : UserInput) (http : MockHttp) (fs : MockFs),
      ∀ r ∈ (mainRun ui http fs).requests, r.timeout = 10) := by
  refine ⟨?_, ?_, ?_, ?_, ?_⟩
  · intro problem_id resp r hr
    rw [lc_requests] at hr
    simp at hr
    rw [hr]
  · intro contest_id problem_index resp r hr
    rw [cfapi_requests] at hr
    simp at hr
    rw [hr]
  · intro contest_id problem_index resp r hr
    rw [cfpage_requests] at hr
    simp at hr
    rw [hr]
  · intro oj_problem resp r hr
    rw [vjudge_requests] at hr
    simp at hr
    rw [hr]
  · intro ui http fs r hr
    rw [mainRun, finishRun_requests] at hr
    exact sourceStep_timeouts ui http r hr

/-- Mocked HTTP world with well-formed responses: a refused LeetCode
connection, an OK Codeforces API body with an empty problem list, a found
Codeforces statement page, and a VJudge page without a statement panel. -/
def sampleHttpOk : MockHttp :=
  ⟨.netError "refused", .ok 200 (.ok ⟨some "OK", some []⟩),
   .ok 200 (some "text"), .ok 200 none⟩

/-- Witness for C7 at a concrete request of a concrete run. -/
theorem all_requests_timeout_ten_witness :
    (⟨"https://codeforces.com/api/problemset.problems", 10⟩ : HttpRequest).timeout
      = 10 :=
  all_requests_timeout_ten.2.2.2.2 sampleUi sampleHttpOk cleanFs
    ⟨"https://codeforces.com/api/problemset.problems", 10⟩
    (by
      have hreq : (mainRun sampleUi sampleHttpOk cleanFs).requests
          = [⟨"https://codeforces.com/api/problemset.problems", 10⟩,
             ⟨"https://codeforces.com/contest/4/problem/A", 10⟩] := rfl
      rw [hreq]
      exact List.mem_cons_self _ _)

/-! ## C5 -/

theorem fileContentOf_append (a b : List String) :
    fileContentOf (a ++ b) = fileContentOf a ++ fileContentOf b := by
  unfold fileContentOf
  rw [List.map_append]
  apply String.ext
  simp [String.data_join]

theorem mem_metadataEntriesLines (k v : String) (meta : Metadata)
    (h : (k, v) ∈ meta) :
    ("// " ++ k ++ ":") ∈ metadataEntriesLines meta ∨
    ("// " ++ k ++ " (truncated): "
        ++ pyReplaceNewlineWithSpace (pyTake 300 v) ++ "...")
      ∈ metadataEntriesLines meta := by
  induction meta with
  | nil => simp at h
  | cons hd tl ih =>
    rcases List.mem_cons.mp h with h | h
    · subst h
      unfold metadataEntriesLines metadataEntryLines
      by_cases hc : k = "statement" ∧ 300 < v.length
      · right
        rw [if_pos hc]
        exact List.mem_append_left _ (List.mem_singleton.mpr rfl)
      · left
        rw [if_neg hc]
        exact List.mem_append_left _ (List.mem_cons_self _ _)
    · rcases ih h with h' | h'
      · exact Or.inl (List.mem_append_right _ h')
      · exact Or.inr (List.mem_append_right _ h')

/-- C5: whenever metadata was fetched (the dict is nonempty), the generated
file is the metadata comment block followed by the language-specific
skeleton: the block opens with the delimiter line and the `Problem Metadata`
heading, closes with the delimiter line, and contains one key line for every
metadata entry; with no metadata the file is exactly the skeleton. -/
theorem metadata_comment_block_structure (meta : Metadata) (language : String)
    (skeleton_type : Nat) (ext : ExtendedArgs) :
    (meta ≠ [] →
      buildCodeLines meta language skeleton_type ext
        = metadataCommentLines meta ++ skeletonLines language skeleton_type ext ∧
      fileContentOf (buildCodeLines meta language skeleton_type ext)
        = fileContentOf (metadataCommentLines meta)
            ++ fileContentOf (skeletonLines language skeleton_type ext) ∧
      (metadataCommentLines meta).take 2
        = ["// ===================================", "// Problem Metadata"] ∧
      (metadataCommentLines meta).getLast?
        = some "// ===================================\n" ∧
      (∀ kv ∈ meta,
        ("// " ++ kv.1 ++ ":") ∈ metadataCommentLines meta ∨
        ("// " ++ kv.1 ++ " (truncated): "
            ++ pyReplaceNewlineWithSpace (pyTake 300 kv.2) ++ "...")
          ∈ metadataCommentLines meta)) ∧
    (meta = ([] : Metadata) →
      buildCodeLines meta language skeleton_type ext
        = skeletonLines language skeleton_type ext) := by
  constructor
  · intro hne
    refine ⟨?_, ?_, rfl, ?_, ?_⟩
    · simp [buildCodeLines, hne]
    · simp [buildCodeLines, hne, fileContentOf_append]
    · have hshape : metadataCommentLines meta
          = (["// ===================================", "// Problem Metadata"]
              ++ metadataEntriesLines meta) ++ ["// ===================================\n"] := by
        simp [metadataCommentLines]
      rw [hshape]
      exact List.getLast?_concat _
    · intro kv hkv
      obtain ⟨k, v⟩ := kv
      rcases mem_metadataEntriesLines k v meta hkv with h | h
      · left
        simp only [metadataCommentLines, List.mem_cons, List.mem_append]
        exact Or.inr (Or.inr (Or.inl h))
      · right
        simp only [metadataCommentLines, List.mem_cons, List.mem_append]
        exact Or.inr (Or.inr (Or.inl h))
  · intro he
    simp [buildCodeLines, he]

/-- Witness for C5 at concrete metadata, language and skeleton choices. -/
theorem metadata_comment_block_structure_witness :
    buildCodeLines [("title", "Watermelon")] "py" 2 ⟨"", "", "", []⟩
      = metadataCommentLines [("title", "Watermelon")]
          ++ skeletonLines "py" 2 ⟨"", "", "", []⟩ ∧
    buildCodeLines [] "py" 2 ⟨"", "", "", []⟩
      = skeletonLines "py" 2 ⟨"", "", "", []⟩ :=
  ⟨((metadata_comment_block_structure [("title", "Watermelon")] "py" 2
      ⟨"", "", "", []⟩).1 (by simp)).1,
   (metadata_comment_block_structure [] "py" 2 ⟨"", "", "", []⟩).2 rfl⟩

/-! ## C9 -/

/-- C9: a fetched statement longer than 300 characters is emitted as a single
truncated comment line holding exactly its first 300 characters with every
newline replaced by a space and `...` appended (so the shown snippet has 300
characters and no newline); a statement of at most 300 characters is emitted
in full, one comment line per statement line. -/
theorem statement_truncation_rule (v : String) :
    (300 < v.length →
      metadataEntryLines "statement" v
        = ["// statement (truncated): "
            ++ pyReplaceNewlineWithSpace (pyTake 300 v) ++ "..."] ∧
      (pyReplaceNewlineWithSpace (pyTake 300 v)).length = 300 ∧
      ∀ c ∈ (pyReplaceNewlineWithSpace (pyTake 300 v)).toList, c ≠ '\n') ∧
    (v.length ≤ 300 →
      metadataEntryLines "statement" v
        = "// statement:" :: (pySplitlines v).map (fun line => "//    " ++ line)) := by
  constructor
  · intro h
    refine ⟨?_, ?_, ?_⟩
    · unfold metadataEntryLines
      rw [if_pos ⟨rfl, h⟩]
      rw [show ("// " ++ "statement" ++ " (truncated): ")
            = "// statement (truncated): " from rfl]
    · show (String.mk ((v.toList.take 300).map
          (fun c => if c = '\n' then ' ' else c))).length = 300
      have hlen : (String.mk ((v.toList.take 300).map
          (fun c => if c = '\n' then ' ' else c))).length
            = ((v.toList.take 300).map (fun c => if c = '\n' then ' ' else c)).length :=
        rfl
      rw [hlen, List.length_map, List.length_take]
      have : v.toList.length = v.length := rfl
      omega
    · intro c hc
      have hc' : c ∈ (v.toList.take 300).map
          (fun c => if c = '\n' then ' ' else c) := hc
      obtain ⟨a, _, ha⟩ := List.mem_map.mp hc'
      by_cases hA : a = '\n'
      · rw [hA] at ha
        simp at ha
        rw [← ha]
        decide
      · rw [if_neg hA] at ha
        rw [← ha]
        exact hA
  · intro h
    unfold metadataEntryLines
    rw [if_neg (fun hc => absurd hc.2 (not_lt.mpr h))]
    rw [show ("// " ++ "statement" ++ ":") = "// statement:" from rfl]

set_option maxRecDepth 8192 in
/-- Witness for C9: both branches at concrete statements (301 repeated
characters, and a two-line short statement). -/
theorem statement_truncation_rule_witness :
    (300 < (String.mk (List.replicate 301 'x')).length ∧
      metadataEntryLines "statement" (String.mk (List.replicate 301 'x'))
        = ["// statement (truncated): "
            ++ pyReplaceNewlineWithSpace (pyTake 300 (String.mk (List.replicate 301 'x')))
            ++ "..."]) ∧
    metadataEntryLines "statement" "a\nb"
      = "// statement:" :: (pySplitlines "a\nb").map (fun line => "//    " ++ line) :=
  ⟨⟨by decide,
    ((statement_truncation_rule (String.mk (List.replicate 301 'x'))).1 (by decide)).1⟩,
   (statement_truncation_rule "a\nb").2 (by decide)⟩

/-! ## C3 -/

/-- Failing LeetCode responses in the sense of the claim: a request
exception, a non-200 status, or an unparseable JSON body. -/
def lcFailing : LCResponse → Bool
  | .netError _ => true
  | .ok _ (.error _) => true
  | .ok sc (.ok _) => sc != 200

/-- Failing Codeforces API responses in the sense of the claim: a request
exception, an unparseable JSON body, or a body whose status is not `OK`
(the HTTP status code is not checked by the fetcher). -/
def cfApiFailing : CFApiResponse → Bool
  | .netError _ => true
  | .ok _ (.error _) => true
  | .ok _ (.ok d) => d.status != some "OK"

/-- Codeforces API responses on which the fetcher raises an uncaught
`KeyError`: a parsed status-OK body without `result`/`problems`. -/
def cfApiRaising : CFApiResponse → Bool
  | .ok _ (.ok d) => d.status == some "OK" && d.problems.isNone
  | _ => false

/-- Failing scraped-page responses in the sense of the claim: a request
exception, a non-200 status, or a missing statement element. -/
def pageFailing : PageResponse → Bool
  | .netError _ => true
  | .ok _ none => true
  | .ok sc (some _) => sc != 200

theorem lc_result_ok (problem_id : Int) (resp : LCResponse) :
    ∃ o, (get_leetcode_problem problem_id resp).result = .ok o := by
  cases resp with
  | netError e => exact ⟨none, rfl⟩
  | ok sc body =>
    cases body with
    | error e =>
      simp only [get_leetcode_problem]
      split
      · exact ⟨none, rfl⟩
      · exact ⟨none, rfl⟩
    | ok d =>
      simp only [get_leetcode_problem]
      split
      · exact ⟨none, rfl⟩
      · split
        · exact ⟨none, rfl⟩
        · exact ⟨some d, rfl⟩

theorem cfapi_result_ok (contest_id : Int) (problem_index : String)
    (resp : CFApiResponse) (h : cfApiRaising resp = false) :
    ∃ o, (codeforces_api_fetch contest_id problem_index resp).result = .ok o := by
  cases resp with
  | netError e => exact ⟨none, rfl⟩
  | ok sc body =>
    cases body with
    | error e => exact ⟨none, rfl⟩
    | ok data =>
      by_cases hst : data.status = some "OK"
      · cases hpr : data.problems with
        | none =>
          exfalso
          simp [cfApiRaising, hst, hpr] at h
        | some ps =>
          cases hfind : ps.find?
              (fun p => p.contestId == contest_id && p.index == problem_index) with
          | some p =>
            exact ⟨some ⟨p.name, p.tags⟩,
              by simp [codeforces_api_fetch, hst, hpr, hfind]⟩
          | none =>
            exact ⟨none, by simp [codeforces_api_fetch, hst, hpr, hfind]⟩
      · exact ⟨none, by simp [codeforces_api_fetch, hst]⟩

theorem cfpage_result_ok (contest_id : Int) (problem_index : String)
    (resp : PageResponse) :
    ∃ o, (scrape_codeforces_statement contest_id problem_index resp).result = .ok o := by
  cases resp with
  | netError e => exact ⟨none, rfl⟩
  | ok sc div =>
    cases div with
    | none =>
      simp only [scrape_codeforces_statement]
      split
      · exact ⟨none, rfl⟩
      · exact ⟨none, rfl⟩
    | some t =>
      simp only [scrape_codeforces_statement]
      split
      · exact ⟨none, rfl⟩
      · exact ⟨some _, rfl⟩

theorem vjudge_result_ok (oj_problem : String) (resp : PageResponse) :
    ∃ o, (scrape_vjudge_statement oj_problem resp).result = .ok o := by
  cases resp with
  | netError e => exact ⟨none, rfl⟩
  | ok sc div =>
    cases div with
    | none =>
      simp only [scrape_vjudge_statement]
      split
      · exact ⟨none, rfl⟩
      · exact ⟨none, rfl⟩
    | some t =>
      simp only [scrape_vjudge_statement]
      split
      · exact ⟨none, rfl⟩
      · exact ⟨some _, rfl⟩

theorem sourceStep_ok (ui : UserInput) (http : MockHttp)
    (h : cfApiRaising http.cfApi = false) :
    ∃ meta, (sourceStep ui http).result = .ok meta := by
  unfold sourceStep
  split
  · obtain ⟨o, ho⟩ := lc_result_ok ui.leetcode_id http.leetcode
    cases o with
    | none => exact ⟨[], by simp [leetcodeBranch, ho]⟩
    | some ld =>
      exact ⟨[("title", ld.title), ("difficulty", ld.difficulty),
        ("statement", ld.content)], by simp [leetcodeBranch, ho]⟩
  · split
    · obtain ⟨o, ho⟩ := cfapi_result_ok
        ((parse_codeforces_contest_and_index ui.cf_input).1.getD 0)
        ((parse_codeforces_contest_and_index ui.cf_input).2.getD "") http.cfApi h
      obtain ⟨o', ho'⟩ := cfpage_result_ok
        ((parse_codeforces_contest_and_index ui.cf_input).1.getD 0)
        ((parse_codeforces_contest_and_index ui.cf_input).2.getD "") http.cfPage
      simp only [codeforcesBranch, ho, ho']
      split
      · exact ⟨[], rfl⟩
      · split
        · exact ⟨_, rfl⟩
        · exact ⟨_, rfl⟩
    · split
      · obtain ⟨o, ho⟩ := vjudge_result_ok ui.vjudge_input http.vjudgePage
        simp only [vjudgeBranch, ho]
        split
        · exact ⟨[], rfl⟩
        · split
          · exact ⟨_, rfl⟩
          · exact ⟨[], rfl⟩
      · exact ⟨[], rfl⟩

theorem cfApiFailing_not_raising (resp : CFApiResponse)
    (h : cfApiFailing resp = true) : cfApiRaising resp = false := by
  cases resp with
  | netError e => rfl
  | ok sc body =>
    cases body with
    | error e => rfl
    | ok d =>
      simp only [cfApiFailing] at h
      simp only [cfApiRaising]
      simp only [bne_iff_ne, ne_eq] at h
      simp [h]

theorem mainRun_clean_of_ok (ui : UserInput) (http : MockHttp) (meta : Metadata)
    (h : (sourceStep ui http).result = .ok meta) :
    (mainRun ui http cleanFs).outcome = .success ∧
    (mainRun ui http cleanFs).folderName = (sourceStep ui http).folderName ∧
    (mainRun ui http cleanFs).effects
      = [OsEffect.makedirs (sourceStep ui http).folderName,
         OsEffect.writeFile
           (pyPathJoin (sourceStep ui http).folderName (chosenFilename ui))
           (fileContentOf (buildCodeLines meta (chosenLanguage ui)
             ui.skeleton_choice (buildExtendedArgs ui (chosenLanguage ui))))] ∧
    (mainRun ui http cleanFs).msgs
      = (sourceStep ui http).msgs
          ++ [successMsg (pyPathJoin (sourceStep ui http).folderName (chosenFilename ui))] := by
  refine ⟨?_, ?_, ?_, ?_⟩ <;> simp [mainRun, finishRun, cleanFs, h]

/-- C3 counterexample: `codeforces_api_fetch` never inspects the HTTP status
code, so a non-200 response is not by itself a caught failure: on a 500
response whose body is a well-formed status-OK problem list containing the
requested problem, the fetcher returns the metadata rather than `None` and
prints no warning or error message, contradicting the claim for the
`non-200 status` failure case. -/
theorem cf_api_ignores_status_code :
    (codeforces_api_fetch 4 "A"
        (.ok 500 (.ok ⟨some "OK", some [⟨4, "A", "Watermelon", ["math"]⟩]⟩))).result
      = .ok (some ⟨"Watermelon", ["math"]⟩) ∧
    (codeforces_api_fetch 4 "A"
        (.ok 500 (.ok ⟨some "OK", some [⟨4, "A", "Watermelon", ["math"]⟩]⟩))).msgs
      = [] :=
  ⟨rfl, rfl⟩

/-- C3 (amended): every failure of the four fetchers — a request exception;
an unparseable response body; a non-200 status in `get_leetcode_problem`,
`scrape_codeforces_statement` and `scrape_vjudge_statement` (but not in
`codeforces_api_fetch`, which ignores the HTTP status code and fails only
through its body); a non-OK API status; or a missing statement element — is
handled inside the fetcher, which returns `None`; a warning or error message
is printed by the fetcher in every such case except a missing statement
element, for which `main` prints the warning instead; and `main` still
creates the folder and writes the skeleton file rather than propagating an
exception. -/
theorem fetcher_failure_handling :
    (∀ (problem_id : Int) (e : String),
      (get_leetcode_problem problem_id (.netError e)).result = .ok none ∧
      (get_leetcode_problem problem_id (.netError e)).msgs
        = ["[Warning] LeetCode Node server request failed: " ++ e]) ∧
    (∀ (problem_id : Int) (sc : Nat) (body : Except String LCBody), sc ≠ 200 →
      (get_leetcode_problem problem_id (.ok sc body)).result = .ok none ∧
      (get_leetcode_problem problem_id (.ok sc body)).msgs
        = ["[Warning] Could not retrieve LeetCode problem from Node API. Status code: "
            ++ toString sc]) ∧
    (∀ (problem_id : Int) (e : String),
      (get_leetcode_problem problem_id (.ok 200 (.error e))).result = .ok none ∧
      (get_leetcode_problem problem_id (.ok 200 (.error e))).msgs
        = ["[Warning] LeetCode Node server request failed: " ++ e]) ∧
    (∀ (contest_id : Int) (problem_index e : String),
      (codeforces_api_fetch contest_id problem_index (.netError e)).result
        = .ok none ∧
      (codeforces_api_fetch contest_id problem_index (.netError e)).msgs
        = ["[Error] While contacting Codeforces API: " ++ e]) ∧
    (∀ (contest_id : Int) (problem_index : String) (sc : Nat) (e : String),
      (codeforces_api_fetch contest_id problem_index (.ok sc (.error e))).result
        = .ok none ∧
      (codeforces_api_fetch contest_id problem_index (.ok sc (.error e))).msgs
        = ["[Error] While contacting Codeforces API: " ++ e]) ∧
    (∀ (contest_id : Int) (problem_index : String) (sc : Nat) (data : CFApiBody),
      data.status ≠ some "OK" →
      (codeforces_api_fetch contest_id problem_index (.ok sc (.ok data))).result
        = .ok none ∧
      (codeforces_api_fetch contest_id problem_index (.ok sc (.ok data))).msgs
        = ["[Error] Codeforces API did not respond with status=OK."]) ∧
    (∀ (contest_id : Int) (problem_index e : String),
      (scrape_codeforces_statement contest_id problem_index (.netError e)).result
        = .ok none ∧
      (scrape_codeforces_statement contest_id problem_index (.netError e)).msgs
        = ["[Error] While scraping Codeforces statement: " ++ e]) ∧
    (∀ (contest_id : Int) (problem_index : String) (sc : Nat) (div : Option String),
      sc ≠ 200 →
      (scrape_codeforces_statement contest_id problem_index (.ok sc div)).result
        = .ok none ∧
      (scrape_codeforces_statement contest_id problem_index (.ok sc div)).msgs
        = ["[Warning] Could not scrape Codeforces statement: HTTP " ++ toString sc]) ∧
    (∀ (contest_id : Int) (problem_index : String),
      (scrape_codeforces_statement contest_id problem_index (.ok 200 none)).result
        = .ok none ∧
      (scrape_codeforces_statement contest_id problem_index (.ok 200 none)).msgs
        = []) ∧
    (∀ (oj_problem e : String),
      (scrape_vjudge_statement oj_problem (.netError e)).result = .ok none ∧
      (scrape_vjudge_statement oj_problem (.netError e)).msgs
        = ["[Error] While scraping VJudge statement: " ++ e]) ∧
    (∀ (oj_problem : String) (sc : Nat) (div : Option String), sc ≠ 200 →
      (scrape_vjudge_statement oj_problem (.ok sc div)).result = .ok none ∧
      (scrape_vjudge_statement oj_problem (.ok sc div)).msgs
        = ["[Warning] Could not scrape VJudge statement: HTTP " ++ toString sc]) ∧
    (∀ (oj_problem : String),
      (scrape_vjudge_statement oj_problem (.ok 200 none)).result = .ok none ∧
      (scrape_vjudge_statement oj_problem (.ok 200 none)).msgs = []) ∧
    (∀ (ui : UserInput) (http : MockHttp),
      ui.problem_type = 2 →
      pyFalsyOptInt (parse_codeforces_contest_and_index ui.cf_input).1 = false →
      pyFalsyOptStr (parse_codeforces_contest_and_index ui.cf_input).2 = false →
      cfApiRaising http.cfApi = false →
      http.cfPage = .ok 200 none →
      "[Warning] Could not scrape Codeforces statement."
        ∈ (mainRun ui http cleanFs).msgs) ∧
    (∀ (ui : UserInput) (http : MockHttp),
      ui.problem_type = 3 → ui.vjudge_input ≠ "" →
      http.vjudgePage = .ok 200 none →
      "[Warning] Could not retrieve VJudge statement. Possibly requires login or page changed."
        ∈ (mainRun ui http cleanFs).msgs) ∧
    (∀ (ui : UserInput) (http : MockHttp),
      lcFailing http.leetcode = true → cfApiFailing http.cfApi = true →
      pageFailing http.cfPage = true → pageFailing http.vjudgePage = true →
      (mainRun ui http cleanFs).outcome = .success ∧
      OsEffect.makedirs (mainRun ui http cleanFs).folderName
        ∈ (mainRun ui http cleanFs).effects ∧
      ∃ p c, OsEffect.writeFile p c ∈ (mainRun ui http cleanFs).effects) := by
  refine ⟨fun i e => ⟨rfl, rfl⟩,
          fun i sc body h => ⟨?_, ?_⟩,
          fun i e => ⟨rfl, rfl⟩,
          fun c i e => ⟨rfl, rfl⟩,
          fun c i sc e => ⟨rfl, rfl⟩,
          fun c i sc data h => ⟨?_, ?_⟩,
          fun c i e => ⟨rfl, rfl⟩,
          fun c i sc div h => ⟨?_, ?_⟩,
          fun c i => ⟨rfl, rfl⟩,
          fun oj e => ⟨rfl, rfl⟩,
          fun oj sc div h => ⟨?_, ?_⟩,
          fun oj => ⟨rfl, rfl⟩,
          ?_, ?_, ?_⟩
  · simp [get_leetcode_problem, h]
  · simp [get_leetcode_problem, h]
  · simp [codeforces_api_fetch, h]
  · simp [codeforces_api_fetch, h]
  · simp [scrape_codeforces_statement, h]
  · simp [scrape_codeforces_statement, h]
  · simp [scrape_vjudge_statement, h]
  · simp [scrape_vjudge_statement, h]
  · intro ui http hpt hv1 hv2 hnr hpage
    obtain ⟨m, hm⟩ := sourceStep_ok ui http hnr
    rw [(mainRun_clean_of_ok ui http m hm).2.2.2]
    apply List.mem_append_left
    obtain ⟨o, ho⟩ := cfapi_result_ok
      ((parse_codeforces_contest_and_index ui.cf_input).1.getD 0)
      ((parse_codeforces_contest_and_index ui.cf_input).2.getD "") http.cfApi hnr
    simp [sourceStep, hpt, codeforcesBranch, hv1, hv2, ho, hpage,
      scrape_codeforces_statement, pyTruthyOptStr]
  · intro ui http hpt hvj hpage
    have hm : (sourceStep ui http).result = .ok [] := by
      simp [sourceStep, hpt, vjudgeBranch, hvj, hpage, scrape_vjudge_statement,
        pyTruthyOptStr]
    rw [(mainRun_clean_of_ok ui http [] hm).2.2.2]
    apply List.mem_append_left
    simp [sourceStep, hpt, vjudgeBranch, hvj, hpage, scrape_vjudge_statement,
      pyTruthyOptStr]
  · intro ui http h1 h2 h3 h4
    obtain ⟨m, hm⟩ := sourceStep_ok ui http (cfApiFailing_not_raising http.cfApi h2)
    obtain ⟨hout, _hfold, heff, _hmsgs⟩ := mainRun_clean_of_ok ui http m hm
    refine ⟨hout, ?_, ?_⟩
    · rw [heff, (mainRun_clean_of_ok ui http m hm).2.1]
      exact List.mem_cons_self _ _
    · exact ⟨_, _, by rw [heff]; exact List.mem_cons_of_mem _ (List.mem_cons_self _ _)⟩

/-- Witness for C3 (amended) at concrete inputs: a non-200 LeetCode response
is handled, and a run against all-failing endpoints still succeeds. -/
theorem fetcher_failure_handling_witness :
    (get_leetcode_problem 13 (.ok 500 (.ok ⟨"T", "Easy", "c"⟩))).result
      = .ok none ∧
    (mainRun sampleUi sampleHttp cleanFs).outcome = .success :=
  ⟨(fetcher_failure_handling.2.1 13 500 (.ok ⟨"T", "Easy", "c"⟩) (by decide)).1,
   (fetcher_failure_handling.2.2.2.2.2.2.2.2.2.2.2.2.2.2 sampleUi sampleHttp
      (by decide) (by decide) (by decide) (by decide)).1⟩
